import Mathlib

/-!
Shallow embedding of `omi_firmware/led_animation_library.h` (class `LEDAnimator`).

Modelling conventions:
* `millis()` is a simulated monotonic clock; call times are `Nat` milliseconds.
  `unsigned long` arithmetic `millis() - lastUpdate` is 32-bit unsigned
  subtraction; for a monotone clock (`last ≤ now`) it equals
  `(now - last) % 2^32`, which is how `elapsed` is defined.
* C `int` fields (`animationStep`, `brightness`) are modelled as `Int`
  (the values involved never approach 32-bit overflow).
* `ledcWrite(ledChannel, b)` is recorded as a timestamped write `(time, b)`
  in the order the calls occur; `delay(d)` advances the in-call wall clock by
  `d`, so a write issued after a `delay` carries the advanced timestamp, and
  the call's total `blocked` milliseconds are returned so that blocking
  behaviour is observable.
* `connectingPulse`'s `static int pulsePhase` is program-lifetime state that
  `setState` does not touch; it is a field of the state record, initialised
  to 0 at boot and updated only by `connectingPulse`, exactly as in the source.
* The two floating-point duty computations (`processingSpinner`'s and
  `listeningWave`'s `sin`-based expressions) are abstracted as function
  parameters `sinP sinL : Int → Int`; no claim below depends on their values.
* `Serial` logging is ignored (pure diagnostics).
-/

namespace LEDAnim

/-- The `AnimationState` enumeration of `LEDAnimator`. -/
inductive AnimationState where
  | IDLE
  | RECORDING
  | PROCESSING
  | UPLOADING
  | SUCCESS
  | ERROR
  | CONNECTING
  | LISTENING
  | BRUTAL_FEEDBACK
  | LOW_BATTERY
deriving DecidableEq, Repr

/-- The mutable fields of `LEDAnimator` relevant to the animation engine
(`ledPin`/`ledChannel` are configuration constants and are omitted).
`pulsePhase` is the `static int` local of `connectingPulse`. -/
structure LED where
  lastUpdate : Nat
  animationStep : Int
  brightness : Int
  direction : Bool
  pulsePhase : Int
  currentState : AnimationState
deriving DecidableEq, Repr

/-- 2^32, the modulus of `unsigned long` (= `uint32_t` on this target). -/
def U32 : Nat := 4294967296

/-- `millis() - lastUpdate` as 32-bit unsigned subtraction, for a monotone
clock (`last ≤ now`). -/
def elapsed (now last : Nat) : Nat := (now - last) % U32

/-- Result of one `update()` call: the new object state, the `ledcWrite`
calls issued (timestamped), and the total milliseconds spent in `delay`. -/
structure UpdResult where
  st : LED
  writes : List (Nat × Int)
  blocked : Nat
deriving DecidableEq, Repr

/-- `LEDAnimator::setState`. -/
def setState (s : LED) (state : AnimationState) : LED :=
  if s.currentState ≠ state then
    { s with currentState := state, animationStep := 0 }
  else
    s

/-- `LEDAnimator::breathingEffect` (IDLE). -/
def breathingEffect (s : LED) (t : Nat) : UpdResult :=
  if elapsed t s.lastUpdate > 20 then
    if s.direction then
      let b := s.brightness + 1
      let d := if b ≥ 80 then false else s.direction
      { st := { s with lastUpdate := t, brightness := b, direction := d },
        writes := [(t, b)], blocked := 0 }
    else
      let b := s.brightness - 1
      if b ≤ 0 then
        -- direction := true; delay(300); then ledcWrite
        { st := { s with lastUpdate := t, brightness := b, direction := true },
          writes := [(t + 300, b)], blocked := 300 }
      else
        { st := { s with lastUpdate := t, brightness := b },
          writes := [(t, b)], blocked := 0 }
  else
    { st := s, writes := [], blocked := 0 }

/-- `LEDAnimator::recordingPulse` (RECORDING). -/
def recordingPulse (s : LED) (t : Nat) : UpdResult :=
  if elapsed t s.lastUpdate > 8 then
    if s.direction then
      let b := s.brightness + 10
      let d := if b ≥ 255 then false else s.direction
      { st := { s with lastUpdate := t, brightness := b, direction := d },
        writes := [(t, b)], blocked := 0 }
    else
      let b := s.brightness - 10
      let d := if b ≤ 50 then true else s.direction
      { st := { s with lastUpdate := t, brightness := b, direction := d },
        writes := [(t, b)], blocked := 0 }
  else
    { st := s, writes := [], blocked := 0 }

/-- `LEDAnimator::processingSpinner` (PROCESSING). The written duty
`(sin(animationStep * 0.1) + 1) * 127` (a `double` computation truncated to
`int`) is abstracted as `sinP animationStep`; note the local `int brightness`
shadows the member, which is not updated. -/
def processingSpinner (sinP : Int → Int) (s : LED) (t : Nat) : UpdResult :=
  if elapsed t s.lastUpdate > 30 then
    let step := s.animationStep + 1
    { st := { s with lastUpdate := t, animationStep := step },
      writes := [(t, sinP step)], blocked := 0 }
  else
    { st := s, writes := [], blocked := 0 }

/-- `LEDAnimator::uploadingBlink` (UPLOADING). -/
def uploadingBlink (s : LED) (t : Nat) : UpdResult :=
  if elapsed t s.lastUpdate > 100 then
    let b : Int := if s.brightness = 0 then 255 else 0
    { st := { s with lastUpdate := t, brightness := b },
      writes := [(t, b)], blocked := 0 }
  else
    { st := s, writes := [], blocked := 0 }

/-- `LEDAnimator::successFlash` (SUCCESS). -/
def successFlash (s : LED) (t : Nat) : UpdResult :=
  if s.animationStep < 6 ∧ elapsed t s.lastUpdate > 150 then
    { st := { s with lastUpdate := t, animationStep := s.animationStep + 1 },
      writes := [(t, if s.animationStep % 2 ≠ 0 then 255 else 0)], blocked := 0 }
  else if s.animationStep ≥ 6 then
    { st := setState s .IDLE, writes := [], blocked := 0 }
  else
    { st := s, writes := [], blocked := 0 }

/-- `LEDAnimator::errorFlash` (ERROR). -/
def errorFlash (s : LED) (t : Nat) : UpdResult :=
  if elapsed t s.lastUpdate > 50 then
    let b : Int := if s.brightness = 0 then 255 else 0
    { st := { s with lastUpdate := t, brightness := b },
      writes := [(t, b)], blocked := 0 }
  else
    { st := s, writes := [], blocked := 0 }

/-- `LEDAnimator::connectingPulse` (CONNECTING). In case 4 the source sets
`pulsePhase = -1`, calls `delay(600)`, and the trailing `pulsePhase++` makes
it 0; the default branch (unreachable phases) still runs `pulsePhase++`. -/
def connectingPulse (s : LED) (t : Nat) : UpdResult :=
  if elapsed t s.lastUpdate > 200 then
    if s.pulsePhase = 0 ∨ s.pulsePhase = 2 then
      { st := { s with lastUpdate := t, pulsePhase := s.pulsePhase + 1 },
        writes := [(t, 255)], blocked := 0 }
    else if s.pulsePhase = 1 ∨ s.pulsePhase = 3 then
      { st := { s with lastUpdate := t, pulsePhase := s.pulsePhase + 1 },
        writes := [(t, 0)], blocked := 0 }
    else if s.pulsePhase = 4 then
      { st := { s with lastUpdate := t, pulsePhase := 0 },
        writes := [(t, 0)], blocked := 600 }
    else
      { st := { s with lastUpdate := t, pulsePhase := s.pulsePhase + 1 },
        writes := [], blocked := 0 }
  else
    { st := s, writes := [], blocked := 0 }

/-- `LEDAnimator::listeningWave` (LISTENING). The duty
`(sin(animationStep * 0.05) + 1) * 80 + 20` is abstracted as
`sinL animationStep`; the member `brightness` is shadowed and not updated. -/
def listeningWave (sinL : Int → Int) (s : LED) (t : Nat) : UpdResult :=
  if elapsed t s.lastUpdate > 40 then
    let step := s.animationStep + 1
    { st := { s with lastUpdate := t, animationStep := step },
      writes := [(t, sinL step)], blocked := 0 }
  else
    { st := s, writes := [], blocked := 0 }

/-- `LEDAnimator::brutalFeedbackEffect` (BRUTAL_FEEDBACK). Step 0 writes
duty 0 and calls `delay(500)` without touching `lastUpdate`. -/
def brutalFeedbackEffect (s : LED) (t : Nat) : UpdResult :=
  if s.animationStep = 0 then
    { st := { s with animationStep := 1 },
      writes := [(t, 0)], blocked := 500 }
  else if s.animationStep ≤ 6 ∧ elapsed t s.lastUpdate > 100 then
    { st := { s with lastUpdate := t, animationStep := s.animationStep + 1 },
      writes := [(t, if s.animationStep % 2 ≠ 0 then 255 else 0)], blocked := 0 }
  else if s.animationStep > 6 then
    { st := setState s .LISTENING, writes := [], blocked := 0 }
  else
    { st := s, writes := [], blocked := 0 }

/-- `LEDAnimator::lowBatteryWarning` (LOW_BATTERY). -/
def lowBatteryWarning (s : LED) (t : Nat) : UpdResult :=
  if elapsed t s.lastUpdate > 1000 then
    let b : Int := if s.brightness = 0 then 100 else 0
    { st := { s with lastUpdate := t, brightness := b },
      writes := [(t, b)], blocked := 0 }
  else
    { st := s, writes := [], blocked := 0 }

/-- `LEDAnimator::update` — dispatch on `currentState`. -/
def update (sinP sinL : Int → Int) (s : LED) (t : Nat) : UpdResult :=
  match s.currentState with
  | .IDLE => breathingEffect s t
  | .RECORDING => recordingPulse s t
  | .PROCESSING => processingSpinner sinP s t
  | .UPLOADING => uploadingBlink s t
  | .SUCCESS => successFlash s t
  | .ERROR => errorFlash s t
  | .CONNECTING => connectingPulse s t
  | .LISTENING => listeningWave sinL s t
  | .BRUTAL_FEEDBACK => brutalFeedbackEffect s t
  | .LOW_BATTERY => lowBatteryWarning s t

/-- Run a sequence of `update()` calls at the given start times, collecting
all writes in order. -/
def runUpdates (sinP sinL : Int → Int) (s : LED) (ts : List Nat) :
    LED × List (Nat × Int) :=
  match ts with
  | [] => (s, [])
  | t :: rest =>
    let r := update sinP sinL s t
    let p := runUpdates sinP sinL r.st rest
    (p.1, r.writes ++ p.2)

/-- The constructor `LEDAnimator(pin)`: `lastUpdate = 0`, `animationStep = 0`,
`brightness = 0`, `direction = true`, `currentState = IDLE`; the static
`pulsePhase` is zero-initialised at program start. -/
def init : LED :=
  { lastUpdate := 0, animationStep := 0, brightness := 0, direction := true,
    pulsePhase := 0, currentState := .IDLE }

/-- The zero stand-in for the abstracted `sin` duty computations, used when
evaluating traces that never enter PROCESSING or LISTENING. -/
def sinZ : Int → Int := fun _ => 0

/-! ### Helper lemmas -/

theorem elapsed_eq (now last : Nat) (hb : now - last < U32) :
    elapsed now last = now - last := by
  unfold elapsed
  exact Nat.mod_eq_of_lt hb

theorem update_eq_success (sinP sinL : Int → Int) (s : LED) (t : Nat)
    (hs : s.currentState = .SUCCESS) :
    update sinP sinL s t = successFlash s t := by
  unfold update
  rw [hs]

theorem update_eq_brutal (sinP sinL : Int → Int) (s : LED) (t : Nat)
    (hs : s.currentState = .BRUTAL_FEEDBACK) :
    update sinP sinL s t = brutalFeedbackEffect s t := by
  unfold update
  rw [hs]

theorem update_eq_idle (sinP sinL : Int → Int) (s : LED) (t : Nat)
    (hs : s.currentState = .IDLE) :
    update sinP sinL s t = breathingEffect s t := by
  unfold update
  rw [hs]

theorem update_eq_recording (sinP sinL : Int → Int) (s : LED) (t : Nat)
    (hs : s.currentState = .RECORDING) :
    update sinP sinL s t = recordingPulse s t := by
  unfold update
  rw [hs]

theorem update_eq_error (sinP sinL : Int → Int) (s : LED) (t : Nat)
    (hs : s.currentState = .ERROR) :
    update sinP sinL s t = errorFlash s t := by
  unfold update
  rw [hs]

theorem update_eq_uploading (sinP sinL : Int → Int) (s : LED) (t : Nat)
    (hs : s.currentState = .UPLOADING) :
    update sinP sinL s t = uploadingBlink s t := by
  unfold update
  rw [hs]

theorem update_eq_lowbattery (sinP sinL : Int → Int) (s : LED) (t : Nat)
    (hs : s.currentState = .LOW_BATTERY) :
    update sinP sinL s t = lowBatteryWarning s t := by
  unfold update
  rw [hs]

theorem successFlash_tick (s : LED) (t : Nat) (h6 : s.animationStep < 6)
    (hq : 150 < t - s.lastUpdate) (hb : t - s.lastUpdate < U32) :
    successFlash s t =
      { st := { s with lastUpdate := t, animationStep := s.animationStep + 1 },
        writes := [(t, if s.animationStep % 2 ≠ 0 then 255 else 0)],
        blocked := 0 } := by
  unfold successFlash
  rw [if_pos ⟨h6, by rw [elapsed_eq t s.lastUpdate hb]; exact hq⟩]

theorem successFlash_end (s : LED) (t : Nat) (h6 : s.animationStep = 6)
    (hs : s.currentState = .SUCCESS) :
    successFlash s t =
      { st := { s with currentState := .IDLE, animationStep := 0 },
        writes := [], blocked := 0 } := by
  unfold successFlash setState
  rw [if_neg (by rw [h6]; simp), if_pos (by rw [h6]), if_pos (by rw [hs]; simp)]

theorem brutal_first (s : LED) (t : Nat) (h0 : s.animationStep = 0) :
    brutalFeedbackEffect s t =
      { st := { s with animationStep := 1 }, writes := [(t, 0)], blocked := 500 } := by
  unfold brutalFeedbackEffect
  rw [if_pos h0]

theorem brutal_tick (s : LED) (t : Nat) (h1 : s.animationStep ≠ 0)
    (h6 : s.animationStep ≤ 6) (hq : 100 < t - s.lastUpdate)
    (hb : t - s.lastUpdate < U32) :
    brutalFeedbackEffect s t =
      { st := { s with lastUpdate := t, animationStep := s.animationStep + 1 },
        writes := [(t, if s.animationStep % 2 ≠ 0 then 255 else 0)],
        blocked := 0 } := by
  unfold brutalFeedbackEffect
  rw [if_neg h1, if_pos ⟨h6, by rw [elapsed_eq t s.lastUpdate hb]; exact hq⟩]

theorem brutal_end (s : LED) (t : Nat) (h6 : 6 < s.animationStep)
    (hs : s.currentState = .BRUTAL_FEEDBACK) :
    brutalFeedbackEffect s t =
      { st := { s with currentState := .LISTENING, animationStep := 0 },
        writes := [], blocked := 0 } := by
  unfold brutalFeedbackEffect setState
  rw [if_neg (by omega), if_neg (by rw [not_and_or]; left; omega),
    if_pos h6, if_pos (by rw [hs]; simp)]

theorem breathing_up (s : LED) (t : Nat) (hd : s.direction = true)
    (hq : 20 < t - s.lastUpdate) (hb : t - s.lastUpdate < U32) :
    breathingEffect s t =
      { st := { s with lastUpdate := t, brightness := s.brightness + 1,
                       direction := if s.brightness + 1 ≥ 80 then false else s.direction },
        writes := [(t, s.brightness + 1)], blocked := 0 } := by
  unfold breathingEffect
  rw [if_pos (by rw [elapsed_eq t s.lastUpdate hb]; exact hq), if_pos hd]

theorem breathing_down (s : LED) (t : Nat) (hd : s.direction = false)
    (hpos : 1 < s.brightness)
    (hq : 20 < t - s.lastUpdate) (hb : t - s.lastUpdate < U32) :
    breathingEffect s t =
      { st := { s with lastUpdate := t, brightness := s.brightness - 1 },
        writes := [(t, s.brightness - 1)], blocked := 0 } := by
  unfold breathingEffect
  rw [if_pos (by rw [elapsed_eq t s.lastUpdate hb]; exact hq), if_neg (by simp [hd]),
    if_neg (by omega)]

theorem breathing_bottom (s : LED) (t : Nat) (hd : s.direction = false)
    (hone : s.brightness ≤ 1)
    (hq : 20 < t - s.lastUpdate) (hb : t - s.lastUpdate < U32) :
    breathingEffect s t =
      { st := { s with lastUpdate := t, brightness := s.brightness - 1,
                       direction := true },
        writes := [(t + 300, s.brightness - 1)], blocked := 300 } := by
  unfold breathingEffect
  rw [if_pos (by rw [elapsed_eq t s.lastUpdate hb]; exact hq), if_neg (by simp [hd]),
    if_pos (by omega)]

theorem recording_up (s : LED) (t : Nat) (hd : s.direction = true)
    (hq : 8 < t - s.lastUpdate) (hb : t - s.lastUpdate < U32) :
    recordingPulse s t =
      { st := { s with lastUpdate := t, brightness := s.brightness + 10,
                       direction := if s.brightness + 10 ≥ 255 then false else s.direction },
        writes := [(t, s.brightness + 10)], blocked := 0 } := by
  unfold recordingPulse
  rw [if_pos (by rw [elapsed_eq t s.lastUpdate hb]; exact hq), if_pos hd]

theorem recording_down (s : LED) (t : Nat) (hd : s.direction = false)
    (hq : 8 < t - s.lastUpdate) (hb : t - s.lastUpdate < U32) :
    recordingPulse s t =
      { st := { s with lastUpdate := t, brightness := s.brightness - 10,
                       direction := if s.brightness - 10 ≤ 50 then true else s.direction },
        writes := [(t, s.brightness - 10)], blocked := 0 } := by
  unfold recordingPulse
  rw [if_pos (by rw [elapsed_eq t s.lastUpdate hb]; exact hq), if_neg (by simp [hd])]

theorem uploadingBlink_tick (s : LED) (t : Nat)
    (hq : 100 < t - s.lastUpdate) (hb : t - s.lastUpdate < U32) :
    uploadingBlink s t =
      { st := { s with lastUpdate := t,
                       brightness := if s.brightness = 0 then 255 else 0 },
        writes := [(t, if s.brightness = 0 then 255 else 0)], blocked := 0 } := by
  unfold uploadingBlink
  rw [if_pos (by rw [elapsed_eq t s.lastUpdate hb]; exact hq)]

theorem errorFlash_tick (s : LED) (t : Nat)
    (hq : 50 < t - s.lastUpdate) (hb : t - s.lastUpdate < U32) :
    errorFlash s t =
      { st := { s with lastUpdate := t,
                       brightness := if s.brightness = 0 then 255 else 0 },
        writes := [(t, if s.brightness = 0 then 255 else 0)], blocked := 0 } := by
  unfold errorFlash
  rw [if_pos (by rw [elapsed_eq t s.lastUpdate hb]; exact hq)]

theorem lowBattery_tick (s : LED) (t : Nat)
    (hq : 1000 < t - s.lastUpdate) (hb : t - s.lastUpdate < U32) :
    lowBatteryWarning s t =
      { st := { s with lastUpdate := t,
                       brightness := if s.brightness = 0 then 100 else 0 },
        writes := [(t, if s.brightness = 0 then 100 else 0)], blocked := 0 } := by
  unfold lowBatteryWarning
  rw [if_pos (by rw [elapsed_eq t s.lastUpdate hb]; exact hq)]

theorem breathingEffect_writes_ge (s : LED) (t : Nat) :
    ∀ w ∈ (breathingEffect s t).writes, t ≤ w.1 := by
  intro w hw
  unfold breathingEffect at hw
  split at hw
  · split at hw
    · simp only [List.mem_singleton] at hw
      subst hw
      simp
    · dsimp only at hw
      split at hw <;> simp only [List.mem_singleton] at hw <;> subst hw <;> simp
  · simp at hw

theorem recordingPulse_writes_ge (s : LED) (t : Nat) :
    ∀ w ∈ (recordingPulse s t).writes, t ≤ w.1 := by
  intro w hw
  unfold recordingPulse at hw
  split at hw
  · split at hw <;> simp only [List.mem_singleton] at hw <;> subst hw <;> simp
  · simp at hw

theorem processingSpinner_writes_ge (sinP : Int → Int) (s : LED) (t : Nat) :
    ∀ w ∈ (processingSpinner sinP s t).writes, t ≤ w.1 := by
  intro w hw
  unfold processingSpinner at hw
  split at hw <;> simp only [List.mem_singleton] at hw
  · subst hw; simp
  · simp at hw

theorem uploadingBlink_writes_ge (s : LED) (t : Nat) :
    ∀ w ∈ (uploadingBlink s t).writes, t ≤ w.1 := by
  intro w hw
  unfold uploadingBlink at hw
  split at hw <;> simp only [List.mem_singleton] at hw
  · subst hw; simp
  · simp at hw

theorem successFlash_writes_ge (s : LED) (t : Nat) :
    ∀ w ∈ (successFlash s t).writes, t ≤ w.1 := by
  intro w hw
  unfold successFlash at hw
  split at hw
  · simp only [List.mem_singleton] at hw
    subst hw; simp
  · split at hw <;> simp at hw

theorem errorFlash_writes_ge (s : LED) (t : Nat) :
    ∀ w ∈ (errorFlash s t).writes, t ≤ w.1 := by
  intro w hw
  unfold errorFlash at hw
  split at hw <;> simp only [List.mem_singleton] at hw
  · subst hw; simp
  · simp at hw

theorem connectingPulse_writes_ge (s : LED) (t : Nat) :
    ∀ w ∈ (connectingPulse s t).writes, t ≤ w.1 := by
  intro w hw
  unfold connectingPulse at hw
  split at hw
  · split at hw
    · simp only [List.mem_singleton] at hw
      subst hw; simp
    · split at hw
      · simp only [List.mem_singleton] at hw
        subst hw; simp
      · split at hw
        · simp only [List.mem_singleton] at hw
          subst hw; simp
        · simp at hw
  · simp at hw

theorem listeningWave_writes_ge (sinL : Int → Int) (s : LED) (t : Nat) :
    ∀ w ∈ (listeningWave sinL s t).writes, t ≤ w.1 := by
  intro w hw
  unfold listeningWave at hw
  split at hw <;> simp only [List.mem_singleton] at hw
  · subst hw; simp
  · simp at hw

theorem brutalFeedbackEffect_writes_ge (s : LED) (t : Nat) :
    ∀ w ∈ (brutalFeedbackEffect s t).writes, t ≤ w.1 := by
  intro w hw
  unfold brutalFeedbackEffect at hw
  split at hw
  · simp only [List.mem_singleton] at hw
    subst hw; simp
  · split at hw
    · simp only [List.mem_singleton] at hw
      subst hw; simp
    · split at hw <;> simp at hw

theorem lowBatteryWarning_writes_ge (s : LED) (t : Nat) :
    ∀ w ∈ (lowBatteryWarning s t).writes, t ≤ w.1 := by
  intro w hw
  unfold lowBatteryWarning at hw
  split at hw <;> simp only [List.mem_singleton] at hw
  · subst hw; simp
  · simp at hw

/-- Every `ledcWrite` in a call of `update` started at time `t` happens at
wall-clock time `≥ t` (a `delay` can only push a write later). -/
theorem update_writes_ge (sinP sinL : Int → Int) (s : LED) (t : Nat) :
    ∀ w ∈ (update sinP sinL s t).writes, t ≤ w.1 := by
  unfold update
  cases s.currentState
  case IDLE => exact breathingEffect_writes_ge s t
  case RECORDING => exact recordingPulse_writes_ge s t
  case PROCESSING => exact processingSpinner_writes_ge sinP s t
  case UPLOADING => exact uploadingBlink_writes_ge s t
  case SUCCESS => exact successFlash_writes_ge s t
  case ERROR => exact errorFlash_writes_ge s t
  case CONNECTING => exact connectingPulse_writes_ge s t
  case LISTENING => exact listeningWave_writes_ge sinL s t
  case BRUTAL_FEEDBACK => exact brutalFeedbackEffect_writes_ge s t
  case LOW_BATTERY => exact lowBatteryWarning_writes_ge s t

theorem recordingPulse_currentState (s : LED) (t : Nat) :
    (recordingPulse s t).st.currentState = s.currentState := by
  unfold recordingPulse
  split
  · split <;> rfl
  · rfl

theorem errorFlash_currentState (s : LED) (t : Nat) :
    (errorFlash s t).st.currentState = s.currentState := by
  unfold errorFlash
  split <;> rfl

/-! ### Claim theorems -/

/-- C1: the claim states that every duty written to the PWM output, and the
stored `brightness`, stay in [0, 255], with out-of-range values clamped
before writing. The code has no clamping: from the boot state, entering
RECORDING and running 26 qualifying ticks (9 ms apart) ramps `brightness`
by +10 from 0 past the 255 bound and writes duty 260 to the PWM output,
leaving stored `brightness = 260`. -/
theorem C1_unclamped_duty :
    ((234 : Nat), (260 : Int)) ∈
        (runUpdates sinZ sinZ (setState init .RECORDING)
          ((List.range 26).map (fun i => 9 * (i + 1)))).2 ∧
      (runUpdates sinZ sinZ (setState init .RECORDING)
          ((List.range 26).map (fun i => 9 * (i + 1)))).1.brightness = 260 ∧
      ¬((260 : Int) ≤ 255) := by
  decide

set_option maxRecDepth 100000 in
/-- C2: the claim states that `update()` never sleeps, with the 300 ms
idle-bottom pause, the 600 ms connecting pause and the 500 ms
brutal-feedback lead-in realized as deferred timestamp checks. The code
realizes all three as blocking `delay()` calls inside `update()`: from the
boot state, (a) 159 idle ticks at 21 ms cadence reach `brightness = 1`
descending, and the next tick blocks for 300 ms; (b) in CONNECTING, the
fifth qualifying tick (phase 4) blocks for 600 ms; (c) in BRUTAL_FEEDBACK,
the very first `update()` blocks for 500 ms. -/
theorem C2_update_blocks :
    (update sinZ sinZ
        (runUpdates sinZ sinZ init ((List.range 159).map (fun i => 21 * (i + 1)))).1
        (21 * 160)).blocked = 300 ∧
      (update sinZ sinZ
          (runUpdates sinZ sinZ (setState init .CONNECTING) [201, 402, 603, 804]).1
          1005).blocked = 600 ∧
      (update sinZ sinZ (setState init .BRUTAL_FEEDBACK) 5).blocked = 500 := by
  decide

/-- C5: the claim states that every transition into CONNECTING restarts the
5-phase counter at 0 (same reset-on-transition treatment as `step`). In the
code `pulsePhase` is a `static` local that `setState` never resets: enter
CONNECTING, run one qualifying tick (phase 0 → 1, write 255), transition to
IDLE and back to CONNECTING — `animationStep` is reset to 0 but `pulsePhase`
is still 1, and the first qualifying tick after re-entry writes 0 instead of
restarting the cycle with 255. -/
theorem C5_connecting_phase_not_reset :
    (setState (setState (update sinZ sinZ (setState init .CONNECTING) 201).st
          .IDLE) .CONNECTING).currentState = .CONNECTING ∧
      (setState (setState (update sinZ sinZ (setState init .CONNECTING) 201).st
          .IDLE) .CONNECTING).animationStep = 0 ∧
      (setState (setState (update sinZ sinZ (setState init .CONNECTING) 201).st
          .IDLE) .CONNECTING).pulsePhase = 1 ∧
      (update sinZ sinZ
          (setState (setState (update sinZ sinZ (setState init .CONNECTING) 201).st
            .IDLE) .CONNECTING) 402).writes = [(402, 0)] := by
  decide

/-- C6: `setState(newState)` with `newState ≠ current` sets
`current := newState` and `step := 0`, leaving `brightness`, `direction` and
`lastUpdateTime` (and the static `pulsePhase`) unchanged; with
`newState = current` it is a no-op. -/
theorem C6_setState_contract (s : LED) (ns : AnimationState) :
    setState s ns =
      if ns = s.currentState then s
      else { s with currentState := ns, animationStep := 0 } := by
  unfold setState
  by_cases h : ns = s.currentState
  · rw [if_neg (by simp [h]), if_pos h]
  · rw [if_pos (fun e => h e.symm), if_neg h]

/-- C8 counterexample: from the boot Idle state (trivially reachable by
running in Idle), `setState(RECORDING)` followed by `update()` with the
clock advanced exactly 8 ms writes no duty at all (the cadence check is
strict), and with the clock advanced 9 ms it writes duty 10 — not a value
≥ 50 as the claim requires. -/
theorem C8_recording_entry_cex :
    init.currentState = .IDLE ∧
      (update sinZ sinZ (setState init .RECORDING) 8).writes = [] ∧
      (update sinZ sinZ (setState init .RECORDING) 9).writes = [(9, 10)] ∧
      ¬((50 : Int) ≤ 10) := by
  decide

/-- C8 amended: from any Idle state, after `setState(RECORDING)`, an
`update()` with the clock advanced exactly 8 ms writes nothing (the cadence
requires strictly more than 8 ms), and an `update()` with the clock advanced
more than 8 ms writes exactly one duty, equal to the carried-over brightness
± 10 (Recording's ramp step, rather than Idle's ± 1 ramp); the duty need not
be ≥ 50. -/
theorem C8_recording_entry_amended (sinP sinL : Int → Int) (s : LED)
    (t t' : Nat) (hs : s.currentState = .IDLE)
    (h8 : t - s.lastUpdate = 8)
    (hq : 8 < t' - s.lastUpdate) (hb : t' - s.lastUpdate < U32) :
    (update sinP sinL (setState s .RECORDING) t).writes = [] ∧
      (update sinP sinL (setState s .RECORDING) t').writes =
        [(t', if s.direction then s.brightness + 10 else s.brightness - 10)] := by
  have hset : setState s .RECORDING =
      { s with currentState := .RECORDING, animationStep := 0 } := by
    unfold setState
    rw [if_pos (by rw [hs]; simp)]
  constructor
  · rw [hset, update_eq_recording _ _ _ _ rfl]
    unfold recordingPulse
    rw [if_neg (by
      show ¬(8 < elapsed t s.lastUpdate)
      rw [elapsed, h8]
      norm_num [U32])]
  · rw [hset, update_eq_recording _ _ _ _ rfl]
    by_cases hd : s.direction = true
    · rw [recording_up { s with currentState := .RECORDING, animationStep := 0 }
        t' hd hq hb]
      simp [hd]
    · rw [recording_down { s with currentState := .RECORDING, animationStep := 0 }
        t' (by simpa using hd) hq hb]
      simp [hd]

theorem C8_recording_entry_amended_witness :
    init.currentState = .IDLE ∧ (8 : Nat) - init.lastUpdate = 8 ∧
      8 < (9 : Nat) - init.lastUpdate ∧ (9 : Nat) - init.lastUpdate < U32 ∧
      ((update sinZ sinZ (setState init .RECORDING) 8).writes = [] ∧
        (update sinZ sinZ (setState init .RECORDING) 9).writes =
          [(9, if init.direction then init.brightness + 10
               else init.brightness - 10)]) :=
  ⟨rfl, by decide, by decide, by decide,
    C8_recording_entry_amended sinZ sinZ init 8 9 rfl (by decide) (by decide)
      (by decide)⟩

/-- C9: RECORDING and ERROR never self-terminate: starting from any engine
state in one of those states, any sequence of `update()` calls (with any
simulated clock) leaves `current` unchanged. -/
theorem C9_no_self_termination (sinP sinL : Int → Int) (s : LED)
    (ts : List Nat)
    (hs : s.currentState = .RECORDING ∨ s.currentState = .ERROR) :
    (runUpdates sinP sinL s ts).1.currentState = s.currentState := by
  induction ts generalizing s with
  | nil => rfl
  | cons t rest ih =>
    have hpres : (update sinP sinL s t).st.currentState = s.currentState := by
      rcases hs with h | h
      · rw [update_eq_recording sinP sinL s t h, recordingPulse_currentState]
      · rw [update_eq_error sinP sinL s t h, errorFlash_currentState]
    have hs' : (update sinP sinL s t).st.currentState = .RECORDING ∨
        (update sinP sinL s t).st.currentState = .ERROR := by
      rw [hpres]; exact hs
    calc (runUpdates sinP sinL s (t :: rest)).1.currentState
        = (runUpdates sinP sinL (update sinP sinL s t).st rest).1.currentState :=
          rfl
      _ = (update sinP sinL s t).st.currentState := ih _ hs'
      _ = s.currentState := hpres

theorem C9_no_self_termination_witness :
    ((setState init .RECORDING).currentState = .RECORDING ∨
        (setState init .RECORDING).currentState = .ERROR) ∧
      (runUpdates sinZ sinZ (setState init .RECORDING)
          ((List.range 10000).map (fun i => 9 * (i + 1)))).1.currentState =
        (setState init .RECORDING).currentState :=
  ⟨Or.inl (by decide),
    C9_no_self_termination sinZ sinZ _ _ (Or.inl (by decide))⟩

/-- C3: in SUCCESS with `step = 0`, six qualifying ticks (each more than
150 ms after the previous update, i.e. satisfying the 150 ms cadence check)
write duties alternating 0/255 (three full flashes), and the seventh
`update()` — at any time — transitions to IDLE with `step` reset to 0. -/
theorem C3_success_flashes (sinP sinL : Int → Int) (s : LED)
    (t1 t2 t3 t4 t5 t6 t7 : Nat)
    (hs : s.currentState = .SUCCESS) (h0 : s.animationStep = 0)
    (hq1 : 150 < t1 - s.lastUpdate) (hb1 : t1 - s.lastUpdate < U32)
    (hq2 : 150 < t2 - t1) (hb2 : t2 - t1 < U32)
    (hq3 : 150 < t3 - t2) (hb3 : t3 - t2 < U32)
    (hq4 : 150 < t4 - t3) (hb4 : t4 - t3 < U32)
    (hq5 : 150 < t5 - t4) (hb5 : t5 - t4 < U32)
    (hq6 : 150 < t6 - t5) (hb6 : t6 - t5 < U32) :
    runUpdates sinP sinL s [t1, t2, t3, t4, t5, t6, t7] =
      ({ s with lastUpdate := t6, animationStep := 0, currentState := .IDLE },
        [(t1, 0), (t2, 255), (t3, 0), (t4, 255), (t5, 0), (t6, 255)]) := by
  rcases s with ⟨lu, st0, b, d, ph, cs⟩
  simp only at hs h0 hq1 hb1
  subst hs h0
  have r1 : update sinP sinL ⟨lu, 0, b, d, ph, .SUCCESS⟩ t1 =
      ⟨⟨t1, 1, b, d, ph, .SUCCESS⟩, [(t1, 0)], 0⟩ := by
    rw [update_eq_success _ _ _ _ rfl, successFlash_tick _ _ (by simp) hq1 hb1]
    rfl
  have r2 : update sinP sinL ⟨t1, 1, b, d, ph, .SUCCESS⟩ t2 =
      ⟨⟨t2, 2, b, d, ph, .SUCCESS⟩, [(t2, 255)], 0⟩ := by
    rw [update_eq_success _ _ _ _ rfl, successFlash_tick _ _ (by simp) hq2 hb2]
    rfl
  have r3 : update sinP sinL ⟨t2, 2, b, d, ph, .SUCCESS⟩ t3 =
      ⟨⟨t3, 3, b, d, ph, .SUCCESS⟩, [(t3, 0)], 0⟩ := by
    rw [update_eq_success _ _ _ _ rfl, successFlash_tick _ _ (by simp) hq3 hb3]
    rfl
  have r4 : update sinP sinL ⟨t3, 3, b, d, ph, .SUCCESS⟩ t4 =
      ⟨⟨t4, 4, b, d, ph, .SUCCESS⟩, [(t4, 255)], 0⟩ := by
    rw [update_eq_success _ _ _ _ rfl, successFlash_tick _ _ (by simp) hq4 hb4]
    rfl
  have r5 : update sinP sinL ⟨t4, 4, b, d, ph, .SUCCESS⟩ t5 =
      ⟨⟨t5, 5, b, d, ph, .SUCCESS⟩, [(t5, 0)], 0⟩ := by
    rw [update_eq_success _ _ _ _ rfl, successFlash_tick _ _ (by simp) hq5 hb5]
    rfl
  have r6 : update sinP sinL ⟨t5, 5, b, d, ph, .SUCCESS⟩ t6 =
      ⟨⟨t6, 6, b, d, ph, .SUCCESS⟩, [(t6, 255)], 0⟩ := by
    rw [update_eq_success _ _ _ _ rfl, successFlash_tick _ _ (by simp) hq6 hb6]
    rfl
  have r7 : update sinP sinL ⟨t6, 6, b, d, ph, .SUCCESS⟩ t7 =
      ⟨⟨t6, 0, b, d, ph, .IDLE⟩, [], 0⟩ := by
    rw [update_eq_success _ _ _ _ rfl, successFlash_end _ _ rfl rfl]
  simp only [runUpdates, r1, r2, r3, r4, r5, r6, r7]
  rfl

theorem C3_success_flashes_witness :
    runUpdates sinZ sinZ ⟨0, 0, 5, true, 0, .SUCCESS⟩
        [151, 302, 453, 604, 755, 906, 1000] =
      (⟨906, 0, 5, true, 0, .IDLE⟩,
        [(151, 0), (302, 255), (453, 0), (604, 255), (755, 0), (906, 255)]) :=
  C3_success_flashes sinZ sinZ ⟨0, 0, 5, true, 0, .SUCCESS⟩
    151 302 453 604 755 906 1000 rfl rfl
    (by decide) (by decide) (by decide) (by decide) (by decide) (by decide)
    (by decide) (by decide) (by decide) (by decide) (by decide) (by decide)

/-- C4: in BRUTAL_FEEDBACK with `step = 0`, the first `update()` writes
duty 0 regardless of elapsed time and blocks 500 ms, so the following call
starts no earlier than 500 ms later (`t1 + 500 ≤ t2`); then six qualifying
ticks at the 100 ms cadence write duties alternating 255/0, and the next
`update()` after those six ticks transitions to LISTENING. -/
theorem C4_brutal_feedback (sinP sinL : Int → Int) (s : LED)
    (t1 t2 t3 t4 t5 t6 t7 t8 : Nat)
    (hs : s.currentState = .BRUTAL_FEEDBACK) (h0 : s.animationStep = 0)
    (hd : t1 + 500 ≤ t2)
    (hq2 : 100 < t2 - s.lastUpdate) (hb2 : t2 - s.lastUpdate < U32)
    (hq3 : 100 < t3 - t2) (hb3 : t3 - t2 < U32)
    (hq4 : 100 < t4 - t3) (hb4 : t4 - t3 < U32)
    (hq5 : 100 < t5 - t4) (hb5 : t5 - t4 < U32)
    (hq6 : 100 < t6 - t5) (hb6 : t6 - t5 < U32)
    (hq7 : 100 < t7 - t6) (hb7 : t7 - t6 < U32) :
    (update sinP sinL s t1).writes = [(t1, 0)] ∧
      (update sinP sinL s t1).blocked = 500 ∧
      runUpdates sinP sinL s [t1, t2, t3, t4, t5, t6, t7, t8] =
        ({ s with lastUpdate := t7, animationStep := 0,
                  currentState := .LISTENING },
          [(t1, 0), (t2, 255), (t3, 0), (t4, 255), (t5, 0), (t6, 255),
            (t7, 0)]) := by
  rcases s with ⟨lu, st0, b, d, ph, cs⟩
  simp only at hs h0 hq2 hb2
  subst hs h0
  have r1 : update sinP sinL ⟨lu, 0, b, d, ph, .BRUTAL_FEEDBACK⟩ t1 =
      ⟨⟨lu, 1, b, d, ph, .BRUTAL_FEEDBACK⟩, [(t1, 0)], 500⟩ := by
    rw [update_eq_brutal _ _ _ _ rfl, brutal_first _ _ rfl]
  have r2 : update sinP sinL ⟨lu, 1, b, d, ph, .BRUTAL_FEEDBACK⟩ t2 =
      ⟨⟨t2, 2, b, d, ph, .BRUTAL_FEEDBACK⟩, [(t2, 255)], 0⟩ := by
    rw [update_eq_brutal _ _ _ _ rfl,
      brutal_tick _ _ (by simp) (by simp) hq2 hb2]
    rfl
  have r3 : update sinP sinL ⟨t2, 2, b, d, ph, .BRUTAL_FEEDBACK⟩ t3 =
      ⟨⟨t3, 3, b, d, ph, .BRUTAL_FEEDBACK⟩, [(t3, 0)], 0⟩ := by
    rw [update_eq_brutal _ _ _ _ rfl,
      brutal_tick _ _ (by simp) (by simp) hq3 hb3]
    rfl
  have r4 : update sinP sinL ⟨t3, 3, b, d, ph, .BRUTAL_FEEDBACK⟩ t4 =
      ⟨⟨t4, 4, b, d, ph, .BRUTAL_FEEDBACK⟩, [(t4, 255)], 0⟩ := by
    rw [update_eq_brutal _ _ _ _ rfl,
      brutal_tick _ _ (by simp) (by simp) hq4 hb4]
    rfl
  have r5 : update sinP sinL ⟨t4, 4, b, d, ph, .BRUTAL_FEEDBACK⟩ t5 =
      ⟨⟨t5, 5, b, d, ph, .BRUTAL_FEEDBACK⟩, [(t5, 0)], 0⟩ := by
    rw [update_eq_brutal _ _ _ _ rfl,
      brutal_tick _ _ (by simp) (by simp) hq5 hb5]
    rfl
  have r6 : update sinP sinL ⟨t5, 5, b, d, ph, .BRUTAL_FEEDBACK⟩ t6 =
      ⟨⟨t6, 6, b, d, ph, .BRUTAL_FEEDBACK⟩, [(t6, 255)], 0⟩ := by
    rw [update_eq_brutal _ _ _ _ rfl,
      brutal_tick _ _ (by simp) (by simp) hq6 hb6]
    rfl
  have r7 : update sinP sinL ⟨t6, 6, b, d, ph, .BRUTAL_FEEDBACK⟩ t7 =
      ⟨⟨t7, 7, b, d, ph, .BRUTAL_FEEDBACK⟩, [(t7, 0)], 0⟩ := by
    rw [update_eq_brutal _ _ _ _ rfl,
      brutal_tick _ _ (by simp) (by simp) hq7 hb7]
    rfl
  have r8 : update sinP sinL ⟨t7, 7, b, d, ph, .BRUTAL_FEEDBACK⟩ t8 =
      ⟨⟨t7, 0, b, d, ph, .LISTENING⟩, [], 0⟩ := by
    rw [update_eq_brutal _ _ _ _ rfl, brutal_end _ _ (by simp) rfl]
  refine ⟨by rw [r1], by rw [r1], ?_⟩
  simp only [runUpdates, r1, r2, r3, r4, r5, r6, r7, r8]
  rfl

theorem C4_brutal_feedback_witness :
    (update sinZ sinZ ⟨0, 0, 9, true, 3, .BRUTAL_FEEDBACK⟩ 10).writes =
        [(10, 0)] ∧
      (update sinZ sinZ ⟨0, 0, 9, true, 3, .BRUTAL_FEEDBACK⟩ 10).blocked = 500 ∧
      runUpdates sinZ sinZ ⟨0, 0, 9, true, 3, .BRUTAL_FEEDBACK⟩
          [10, 600, 701, 802, 903, 1004, 1105, 1200] =
        (⟨1105, 0, 9, true, 3, .LISTENING⟩,
          [(10, 0), (600, 255), (701, 0), (802, 255), (903, 0), (1004, 255),
            (1105, 0)]) :=
  C4_brutal_feedback sinZ sinZ ⟨0, 0, 9, true, 3, .BRUTAL_FEEDBACK⟩
    10 600 701 802 903 1004 1105 1200 rfl rfl (by decide)
    (by decide) (by decide) (by decide) (by decide) (by decide) (by decide)
    (by decide) (by decide) (by decide) (by decide) (by decide) (by decide)

/-- C7: Idle (breathing) pattern. On a qualifying tick (more than 20 ms
since the last update): while ascending the duty strictly increases by 1;
direction reverses exactly when the duty reaches 80; while descending the
duty strictly decreases by 1; on reaching 0 the direction reverses, the call
writes duty 0 only at `t + 300` (after the 300 ms pause) and returns with
300 ms blocked, so any write of a following call — which cannot start before
the current one returns — happens at wall-clock time ≥ `t + 300`. -/
theorem C7_idle_breathing (sinP sinL : Int → Int) (s : LED) (t : Nat)
    (hs : s.currentState = .IDLE)
    (hq : 20 < t - s.lastUpdate) (hb : t - s.lastUpdate < U32) :
    (s.direction = true →
      (update sinP sinL s t).writes = [(t, s.brightness + 1)] ∧
      (update sinP sinL s t).st.brightness = s.brightness + 1 ∧
      (s.brightness + 1 = 80 → (update sinP sinL s t).st.direction = false) ∧
      (s.brightness + 1 < 80 → (update sinP sinL s t).st.direction = true)) ∧
    (s.direction = false → 1 < s.brightness →
      (update sinP sinL s t).writes = [(t, s.brightness - 1)] ∧
      (update sinP sinL s t).st.brightness = s.brightness - 1 ∧
      (update sinP sinL s t).st.direction = false) ∧
    (s.direction = false → s.brightness = 1 →
      (update sinP sinL s t).writes = [(t + 300, 0)] ∧
      (update sinP sinL s t).st.direction = true ∧
      (update sinP sinL s t).blocked = 300 ∧
      (∀ t2, t + 300 ≤ t2 →
        ∀ w ∈ (update sinP sinL (update sinP sinL s t).st t2).writes,
          t + 300 ≤ w.1)) := by
  refine ⟨fun hdir => ?_, fun hdir hpos => ?_, fun hdir hone => ?_⟩
  · rw [update_eq_idle _ _ _ _ hs, breathing_up s t hdir hq hb]
    refine ⟨rfl, rfl, fun h80 => ?_, fun h80 => ?_⟩
    · show (if s.brightness + 1 ≥ 80 then false else s.direction) = false
      rw [if_pos (by omega)]
    · show (if s.brightness + 1 ≥ 80 then false else s.direction) = true
      rw [if_neg (by omega), hdir]
  · rw [update_eq_idle _ _ _ _ hs, breathing_down s t hdir hpos hq hb]
    exact ⟨rfl, rfl, hdir⟩
  · rw [update_eq_idle _ _ _ _ hs, breathing_bottom s t hdir (by omega) hq hb]
    refine ⟨by simp [hone], rfl, rfl, fun t2 ht2 w hw => ?_⟩
    exact le_trans ht2 (update_writes_ge _ _ _ _ w hw)

theorem C7_idle_breathing_witness :
    (((⟨0, 0, 1, false, 0, .IDLE⟩ : LED)).direction = true →
      (update sinZ sinZ ⟨0, 0, 1, false, 0, .IDLE⟩ 21).writes = [(21, 1 + 1)] ∧
      (update sinZ sinZ ⟨0, 0, 1, false, 0, .IDLE⟩ 21).st.brightness = 1 + 1 ∧
      ((1 : Int) + 1 = 80 →
        (update sinZ sinZ ⟨0, 0, 1, false, 0, .IDLE⟩ 21).st.direction = false) ∧
      ((1 : Int) + 1 < 80 →
        (update sinZ sinZ ⟨0, 0, 1, false, 0, .IDLE⟩ 21).st.direction = true)) ∧
    (((⟨0, 0, 1, false, 0, .IDLE⟩ : LED)).direction = false → (1 : Int) < 1 →
      (update sinZ sinZ ⟨0, 0, 1, false, 0, .IDLE⟩ 21).writes = [(21, 1 - 1)] ∧
      (update sinZ sinZ ⟨0, 0, 1, false, 0, .IDLE⟩ 21).st.brightness = 1 - 1 ∧
      (update sinZ sinZ ⟨0, 0, 1, false, 0, .IDLE⟩ 21).st.direction = false) ∧
    (((⟨0, 0, 1, false, 0, .IDLE⟩ : LED)).direction = false → (1 : Int) = 1 →
      (update sinZ sinZ ⟨0, 0, 1, false, 0, .IDLE⟩ 21).writes = [(21 + 300, 0)] ∧
      (update sinZ sinZ ⟨0, 0, 1, false, 0, .IDLE⟩ 21).st.direction = true ∧
      (update sinZ sinZ ⟨0, 0, 1, false, 0, .IDLE⟩ 21).blocked = 300 ∧
      (∀ t2, 21 + 300 ≤ t2 →
        ∀ w ∈ (update sinZ sinZ
            (update sinZ sinZ ⟨0, 0, 1, false, 0, .IDLE⟩ 21).st t2).writes,
          21 + 300 ≤ w.1)) :=
  C7_idle_breathing sinZ sinZ ⟨0, 0, 1, false, 0, .IDLE⟩ 21 rfl
    (by decide) (by decide)

theorem uploadingBlink_shape (s : LED) (t : Nat) :
    uploadingBlink s t = ⟨s, [], 0⟩ ∨
      uploadingBlink s t =
        ⟨{ s with lastUpdate := t,
                  brightness := if s.brightness = 0 then 255 else 0 },
          [(t, if s.brightness = 0 then 255 else 0)], 0⟩ := by
  unfold uploadingBlink
  split
  · exact Or.inr rfl
  · exact Or.inl rfl

theorem errorFlash_shape (s : LED) (t : Nat) :
    errorFlash s t = ⟨s, [], 0⟩ ∨
      errorFlash s t =
        ⟨{ s with lastUpdate := t,
                  brightness := if s.brightness = 0 then 255 else 0 },
          [(t, if s.brightness = 0 then 255 else 0)], 0⟩ := by
  unfold errorFlash
  split
  · exact Or.inr rfl
  · exact Or.inl rfl

theorem lowBatteryWarning_shape (s : LED) (t : Nat) :
    lowBatteryWarning s t = ⟨s, [], 0⟩ ∨
      lowBatteryWarning s t =
        ⟨{ s with lastUpdate := t,
                  brightness := if s.brightness = 0 then 100 else 0 },
          [(t, if s.brightness = 0 then 100 else 0)], 0⟩ := by
  unfold lowBatteryWarning
  split
  · exact Or.inr rfl
  · exact Or.inl rfl

theorem uploading_inv (sinP sinL : Int → Int) (s : LED) (ts : List Nat)
    (hs : s.currentState = .UPLOADING)
    (hbr : s.brightness = 0 ∨ s.brightness = 255) :
    (runUpdates sinP sinL s ts).1.currentState = .UPLOADING ∧
      ((runUpdates sinP sinL s ts).1.brightness = 0 ∨
        (runUpdates sinP sinL s ts).1.brightness = 255) := by
  induction ts generalizing s with
  | nil => exact ⟨hs, hbr⟩
  | cons t rest ih =>
    have hstep : (update sinP sinL s t).st.currentState = .UPLOADING ∧
        ((update sinP sinL s t).st.brightness = 0 ∨
          (update sinP sinL s t).st.brightness = 255) := by
      rw [update_eq_uploading _ _ _ _ hs]
      rcases uploadingBlink_shape s t with h | h <;> rw [h]
      · exact ⟨hs, hbr⟩
      · refine ⟨hs, ?_⟩
        by_cases h0 : s.brightness = 0 <;> simp [h0]
    exact ih _ hstep.1 hstep.2

theorem error_inv (sinP sinL : Int → Int) (s : LED) (ts : List Nat)
    (hs : s.currentState = .ERROR)
    (hbr : s.brightness = 0 ∨ s.brightness = 255) :
    (runUpdates sinP sinL s ts).1.currentState = .ERROR ∧
      ((runUpdates sinP sinL s ts).1.brightness = 0 ∨
        (runUpdates sinP sinL s ts).1.brightness = 255) := by
  induction ts generalizing s with
  | nil => exact ⟨hs, hbr⟩
  | cons t rest ih =>
    have hstep : (update sinP sinL s t).st.currentState = .ERROR ∧
        ((update sinP sinL s t).st.brightness = 0 ∨
          (update sinP sinL s t).st.brightness = 255) := by
      rw [update_eq_error _ _ _ _ hs]
      rcases errorFlash_shape s t with h | h <;> rw [h]
      · exact ⟨hs, hbr⟩
      · refine ⟨hs, ?_⟩
        by_cases h0 : s.brightness = 0 <;> simp [h0]
    exact ih _ hstep.1 hstep.2

theorem lowbattery_inv (sinP sinL : Int → Int) (s : LED) (ts : List Nat)
    (hs : s.currentState = .LOW_BATTERY)
    (hbr : s.brightness = 0 ∨ s.brightness = 100) :
    (runUpdates sinP sinL s ts).1.currentState = .LOW_BATTERY ∧
      ((runUpdates sinP sinL s ts).1.brightness = 0 ∨
        (runUpdates sinP sinL s ts).1.brightness = 100) := by
  induction ts generalizing s with
  | nil => exact ⟨hs, hbr⟩
  | cons t rest ih =>
    have hstep : (update sinP sinL s t).st.currentState = .LOW_BATTERY ∧
        ((update sinP sinL s t).st.brightness = 0 ∨
          (update sinP sinL s t).st.brightness = 100) := by
      rw [update_eq_lowbattery _ _ _ _ hs]
      rcases lowBatteryWarning_shape s t with h | h <;> rw [h]
      · exact ⟨hs, hbr⟩
      · refine ⟨hs, ?_⟩
        by_cases h0 : s.brightness = 0 <;> simp [h0]
    exact ih _ hstep.1 hstep.2

/-- C10: in UPLOADING, ERROR and LOW_BATTERY, a qualifying tick writes the
pattern's high value (255, 255, 100) exactly when the stored `brightness` is
0, and writes 0 otherwise; and once the stored `brightness` is in
{0, high} — as it is after the first qualifying tick from any entry
brightness — it stays in {0, high} under any further sequence of
`update()` calls in that state. -/
theorem C10_blink_patterns (sinP sinL : Int → Int) (s : LED) (t : Nat) :
    (s.currentState = .UPLOADING → 100 < t - s.lastUpdate →
      t - s.lastUpdate < U32 →
      (update sinP sinL s t).writes =
        [(t, if s.brightness = 0 then 255 else 0)] ∧
      ((update sinP sinL s t).st.brightness = 0 ∨
        (update sinP sinL s t).st.brightness = 255)) ∧
    (s.currentState = .ERROR → 50 < t - s.lastUpdate →
      t - s.lastUpdate < U32 →
      (update sinP sinL s t).writes =
        [(t, if s.brightness = 0 then 255 else 0)] ∧
      ((update sinP sinL s t).st.brightness = 0 ∨
        (update sinP sinL s t).st.brightness = 255)) ∧
    (s.currentState = .LOW_BATTERY → 1000 < t - s.lastUpdate →
      t - s.lastUpdate < U32 →
      (update sinP sinL s t).writes =
        [(t, if s.brightness = 0 then 100 else 0)] ∧
      ((update sinP sinL s t).st.brightness = 0 ∨
        (update sinP sinL s t).st.brightness = 100)) ∧
    (∀ ts, s.currentState = .UPLOADING →
      s.brightness = 0 ∨ s.brightness = 255 →
      ((runUpdates sinP sinL s ts).1.brightness = 0 ∨
        (runUpdates sinP sinL s ts).1.brightness = 255)) ∧
    (∀ ts, s.currentState = .ERROR →
      s.brightness = 0 ∨ s.brightness = 255 →
      ((runUpdates sinP sinL s ts).1.brightness = 0 ∨
        (runUpdates sinP sinL s ts).1.brightness = 255)) ∧
    (∀ ts, s.currentState = .LOW_BATTERY →
      s.brightness = 0 ∨ s.brightness = 100 →
      ((runUpdates sinP sinL s ts).1.brightness = 0 ∨
        (runUpdates sinP sinL s ts).1.brightness = 100)) := by
  refine ⟨fun hs hq hb => ?_, fun hs hq hb => ?_, fun hs hq hb => ?_,
    fun ts hs hbr => (uploading_inv sinP sinL s ts hs hbr).2,
    fun ts hs hbr => (error_inv sinP sinL s ts hs hbr).2,
    fun ts hs hbr => (lowbattery_inv sinP sinL s ts hs hbr).2⟩
  · rw [update_eq_uploading _ _ _ _ hs, uploadingBlink_tick s t hq hb]
    refine ⟨rfl, ?_⟩
    by_cases h0 : s.brightness = 0 <;> simp [h0]
  · rw [update_eq_error _ _ _ _ hs, errorFlash_tick s t hq hb]
    refine ⟨rfl, ?_⟩
    by_cases h0 : s.brightness = 0 <;> simp [h0]
  · rw [update_eq_lowbattery _ _ _ _ hs, lowBattery_tick s t hq hb]
    refine ⟨rfl, ?_⟩
    by_cases h0 : s.brightness = 0 <;> simp [h0]

theorem C10_blink_patterns_witness :
    (update sinZ sinZ ⟨0, 0, 37, true, 0, .UPLOADING⟩ 101).writes =
        [(101, 0)] ∧
      ((update sinZ sinZ ⟨0, 0, 37, true, 0, .UPLOADING⟩ 101).st.brightness = 0 ∨
        (update sinZ sinZ ⟨0, 0, 37, true, 0, .UPLOADING⟩ 101).st.brightness =
          255) :=
  (C10_blink_patterns sinZ sinZ ⟨0, 0, 37, true, 0, .UPLOADING⟩ 101).1 rfl
    (by decide) (by decide)

end LEDAnim
